import Mathlib

/-!
Device naming, device lifecycle and the Jumperless configuration panel.

A shallow embedding of `pv/devices/hardwaredevice.cpp` and of the polling logic of
`pv/widgets/jumperlessconfig.cpp`, followed by the properties proved about them.

Conventions of the embedding

* An attribute getter of the underlying sigrok device either throws or returns a string;
  it is a value of type `Read`, where `.error ()` stands for a thrown exception.
  Getters are deterministic: reading the same attribute twice gives the same answer.
* A C++ block `try { body } catch (...) { }` that only mutates the local vector `parts`
  is the function `try_catch parts body`: the body runs in the `Except` monad and a
  thrown exception leaves `parts` as it was before the block.
* `boost::algorithm::join (parts, " ")` is `join parts " "`.
* Pointer identity of the underlying sigrok device is the field `id`.
-/

namespace pv
namespace devices

/-- Outcome of one attribute getter: `.error ()` when the getter throws. -/
abbrev Read := Except Unit String

/-- The underlying `sigrok::HardwareDevice` as the wrapper sees it: its identity
(the pointer value) and the outcome of each of its five attribute getters. -/
structure SrDevice where
  id : Nat
  vendor : Read
  model : Read
  version : Read
  serial_number : Read
  connection_id : Read

/-- Boost string join with a separator. -/
def join (parts : List String) (sep : String) : String :=
  sep.intercalate parts

/-- A block `try { body } catch (...) { }` whose only effect is on `parts`. -/
def try_catch (parts : List String) (body : Except Unit (List String)) : List String :=
  match body with
  | .ok parts' => parts'
  | .error _ => parts

/-- Embedding of `HardwareDevice::full_name`; the argument is the member `device_`
(`none` for a null pointer). -/
def full_name (device_ : Option SrDevice) : String :=
  match device_ with
  | none => "(Invalid Device)"
  | some d =>
    let parts : List String := []
    let parts := try_catch parts (do
      if (← d.vendor).length > 0 then
        pure (parts ++ [← d.vendor])
      else pure parts)
    let parts := try_catch parts (do
      if (← d.model).length > 0 then
        pure (parts ++ [← d.model])
      else pure parts)
    let parts := try_catch parts (do
      if (← d.version).length > 0 then
        pure (parts ++ [← d.version])
      else pure parts)
    let parts := try_catch parts (do
      if (← d.serial_number).length > 0 then
        pure (parts ++ ["[S/N: " ++ (← d.serial_number) ++ "]"])
      else pure parts)
    let parts := try_catch parts (do
      if (← d.connection_id).length > 0 then
        pure (parts ++ ["(" ++ (← d.connection_id) ++ ")"])
      else pure parts)
    if parts.isEmpty then "(Disconnected Device)"
    else join parts " "

/-- The predicate handed to `any_of` in `display_name`: `dev` is an entry of the device
manager's list, `hw_dev` the device being named. A throwing getter makes the whole
predicate `false`; `&&` short-circuits from left to right. -/
def same_model_other_device (hw_dev dev : SrDevice) : Bool :=
  match (do
      if (← dev.vendor) == (← hw_dev.vendor) then
        if (← dev.model) == (← hw_dev.model) then
          pure (dev.id != hw_dev.id)
        else pure false
      else pure false : Except Unit Bool) with
  | .ok b => b
  | .error _ => false

/-- Embedding of `HardwareDevice::display_name`. `devices` is `device_manager.devices()`,
every entry given by the (non-null) sigrok device it wraps. -/
def display_name (device_ : Option SrDevice) (devices : List SrDevice) : String :=
  match device_ with
  | none => "(Invalid Device)"
  | some d =>
    let multiple_dev : Bool := devices.any (same_model_other_device d)
    let parts : List String := []
    let parts := try_catch parts (do
      if (← d.vendor).length > 0 then
        pure (parts ++ [← d.vendor])
      else pure parts)
    let parts := try_catch parts (do
      if (← d.model).length > 0 then
        pure (parts ++ [← d.model])
      else pure parts)
    let parts :=
      if multiple_dev then
        let parts := try_catch parts (do
          if (← d.version).length > 0 then
            pure (parts ++ [← d.version])
          else pure parts)
        let parts := try_catch parts (do
          if (← d.serial_number).length > 0 then
            pure (parts ++ ["[S/N: " ++ (← d.serial_number) ++ "]"])
          else pure parts)
        let parts := try_catch parts (do
          if (← d.serial_number).length == 0 then
            if (← d.connection_id).length > 0 then
              pure (parts ++ ["(" ++ (← d.connection_id) ++ ")"])
            else pure parts
          else pure parts)
        parts
      else parts
    if parts.isEmpty then "(Disconnected Device)"
    else join parts " "

/-! Specification-side vocabulary for the naming claims -/

/-- An attribute is readable and non-empty. -/
def present (r : Read) : Prop :=
  ∃ s, r = .ok s ∧ s ≠ ""

/-- The read fails or returns the empty string. -/
def absent (r : Read) : Prop :=
  r = .error () ∨ r = .ok ""

/-- The part an attribute contributes to a label: nothing when the read fails or is
empty, otherwise the rendered value. -/
def part (r : Read) (render : String → String) : List String :=
  match r with
  | .ok s => if s = "" then [] else [render s]
  | .error _ => []

/-- Rendering of a serial number. -/
def render_serial (s : String) : String := "[S/N: " ++ s ++ "]"

/-- Rendering of a connection id. -/
def render_connection (s : String) : String := "(" ++ s ++ ")"

/-- The rendered parts of the readable non-empty attributes in the order vendor, model,
version, serial number, connection id. -/
def full_parts (d : SrDevice) : List String :=
  part d.vendor id ++ part d.model id ++ part d.version id ++
    part d.serial_number render_serial ++ part d.connection_id render_connection

/-- The vendor and model parts only. -/
def short_parts (d : SrDevice) : List String :=
  part d.vendor id ++ part d.model id

/-- Device `s` is another device (distinct identity) whose vendor and model are both
readable and equal to the readable vendor and model of `d`. -/
def ambiguous_with (d s : SrDevice) : Prop :=
  s.id ≠ d.id ∧ ∃ v m, s.vendor = .ok v ∧ d.vendor = .ok v ∧ s.model = .ok m ∧ d.model = .ok m

/-- The connection-id part of an ambiguous label as the specification words it: shown
only when the serial number is absent (a failed read counting as absent). -/
def fallback_connection_part (d : SrDevice) : List String :=
  if part d.serial_number render_serial = [] then part d.connection_id render_connection
  else []

/-- Parts of the label of a device that has an ambiguous sibling, as the specification
words them. -/
def ambiguous_parts (d : SrDevice) : List String :=
  part d.vendor id ++ part d.model id ++ part d.version id ++
    part d.serial_number render_serial ++ fallback_connection_part d

/-- The connection-id part as the code computes it under ambiguity: the block reads the
serial number first, so it contributes only when that read returns the empty string. -/
def code_connection_part (d : SrDevice) : List String :=
  match d.serial_number with
  | .ok s => if s = "" then part d.connection_id render_connection else []
  | .error _ => []

/-- The label produced from a list of parts: the fallback literal when there is none. -/
def label (parts : List String) : String :=
  if parts.isEmpty then "(Disconnected Device)" else join parts " "

/-- The string a list of parts is turned into according to the specification: the
single-space join, or the fallback literal when no part exists. -/
def spec_label (parts : List String) : String :=
  if parts = [] then "(Disconnected Device)" else " ".intercalate parts

/-- A device none of whose attributes can be read. -/
def mute_device : SrDevice :=
  ⟨0, .error (), .ok "", .error (), .ok "", .error ()⟩

/-- A device with a serial number only. -/
def serial_only_device : SrDevice :=
  ⟨0, .error (), .ok "", .ok "", .ok "A7", .error ()⟩

/-- A device of vendor "Acme" and model "X1" with the given identity, version read,
connection-id read and serial number. -/
def acme (i : Nat) (version connection_id : Read) (serial : String) : SrDevice :=
  ⟨i, .ok "Acme", .ok "X1", version, .ok serial, connection_id⟩

/-- A device all of whose attributes read as the empty string. -/
def blank (i : Nat) : SrDevice :=
  ⟨i, .ok "", .ok "", .ok "", .ok "", .ok ""⟩

/-- A device whose serial-number getter throws while its connection id is readable. -/
def no_serial_device : SrDevice :=
  ⟨1, .ok "Acme", .ok "X1", .ok "", .error (), .ok "usb/1-2"⟩

/-- The same device with a serial number that reads as the empty string. -/
def empty_serial_device : SrDevice :=
  ⟨1, .ok "Acme", .ok "X1", .ok "", .ok "", .ok "usb/1-2"⟩

/-- A sibling with the same vendor and model as the two devices above. -/
def acme_sibling : SrDevice :=
  ⟨2, .ok "Acme", .ok "X1", .ok "", .ok "002", .ok "usb/1-3"⟩

/-- Substring test on strings. -/
def contains (s sub : String) : Prop :=
  sub.data <:+: s.data

instance (s sub : String) : Decidable (contains s sub) := by
  unfold contains; infer_instance

end devices
end pv

namespace pv
namespace devices

/-! Device lifecycle: `HardwareDevice::open` and `HardwareDevice::close` -/

/-- Calls on the underlying library objects, recorded in the order they are made. -/
inductive LibCall where
  /-- The call `device_->open()`, with whether it returned normally. -/
  | device_open (ok : Bool)
  /-- The call `device_->close()`. -/
  | device_close
  /-- The call `context_->create_session()`, yielding the session with this handle. -/
  | create_session (session : Nat)
  /-- The call `add_device(device)` on the session with this handle. -/
  | add_device (session : Nat) (device : Nat)
  /-- The call `remove_devices()` on the session with this handle. -/
  | remove_devices (session : Nat)
  deriving DecidableEq, Repr

/-- The wrapper `pv::devices::HardwareDevice` together with the library objects it
touches. `device_` is the identity of the wrapped (non-null) sigrok device, `session_` the
handle of the session object the wrapper holds (`none` for a null pointer). `sessions`
lists, by handle, the devices attached to each session this wrapper has created, and
`calls` is the trace of library calls made so far. Of the library calls only
`device_->open()` may throw. -/
structure HardwareDevice where
  device_ : Nat
  device_open_ : Bool
  session_ : Option Nat
  sessions : List (List Nat)
  calls : List LibCall
  deriving DecidableEq, Repr

/-- The constructor: closed, no session. -/
def HardwareDevice.new (device : Nat) : HardwareDevice :=
  { device_ := device, device_open_ := false, session_ := none, sessions := [], calls := [] }

/-- Embedding of `HardwareDevice::close`. -/
def HardwareDevice.close (w : HardwareDevice) : HardwareDevice :=
  let w := if w.device_open_ then { w with calls := w.calls ++ [LibCall.device_close] } else w
  let w := match w.session_ with
    | some s =>
      { w with sessions := w.sessions.set s [], calls := w.calls ++ [LibCall.remove_devices s] }
    | none => w
  { w with device_open_ := false }

/-- Embedding of `HardwareDevice::open`. `ok` tells whether `device_->open()` returns
normally; the result is the state left behind and whether `open` itself returned normally
(`false`: it threw the error message). -/
def HardwareDevice.open (w : HardwareDevice) (ok : Bool) : HardwareDevice × Bool :=
  let w := if w.device_open_ then w.close else w
  let w := { w with calls := w.calls ++ [LibCall.device_open ok] }
  if ok then
    let w := { w with device_open_ := true }
    let s := w.sessions.length
    let w := { w with session_ := some s, sessions := w.sessions ++ [[]],
                      calls := w.calls ++ [LibCall.create_session s] }
    let w := { w with sessions := w.sessions.set s (w.sessions.getD s [] ++ [w.device_]),
                      calls := w.calls ++ [LibCall.add_device s w.device_] }
    (w, true)
  else
    (w, false)

/-- One call made by a client of the wrapper. -/
inductive Op where
  /-- A call of `open()`; the flag tells whether the underlying open succeeds. -/
  | open (ok : Bool)
  /-- A call of `close()`. -/
  | close
  deriving DecidableEq, Repr

/-- The state after one client call. -/
def HardwareDevice.step (w : HardwareDevice) : Op → HardwareDevice
  | .open ok => (w.open ok).1
  | .close => w.close

/-- The state after a sequence of client calls. -/
def HardwareDevice.run (w : HardwareDevice) (ops : List Op) : HardwareDevice :=
  ops.foldl HardwareDevice.step w

/-- The devices attached to the session the wrapper holds (none when it holds no
session). -/
def HardwareDevice.session_devices (w : HardwareDevice) : List Nat :=
  match w.session_ with
  | some s => w.sessions.getD s []
  | none => []

/-- The handles of the sessions that have the wrapped device attached. -/
def HardwareDevice.active_sessions (w : HardwareDevice) : List Nat :=
  (List.range w.sessions.length).filter (fun s => decide (w.device_ ∈ w.sessions.getD s []))

/-- The facts that hold of the wrapper of `device` in every state its clients can reach:
sessions it does not hold have nothing attached, and the session it holds has exactly
the wrapped device attached when the open flag is set and nothing otherwise. -/
structure Consistent (device : Nat) (w : HardwareDevice) : Prop where
  device_eq : w.device_ = device
  others : ∀ s, w.session_ ≠ some s → w.sessions.getD s [] = []
  held : ∀ s, w.session_ = some s →
    s < w.sessions.length ∧ w.sessions.getD s [] = if w.device_open_ then [device] else []
  closed_of_none : w.session_ = none → w.device_open_ = false

end devices
end pv

namespace pv
namespace widgets

/-! The configuration panel: `JumperlessConfig` -/

/-- The type tag of a channel, `channel->type()->id()`. -/
inductive ChannelType where
  | SR_CHANNEL_LOGIC
  | SR_CHANNEL_ANALOG
  | other
  deriving DecidableEq, Repr

/-- A channel of the sigrok device. -/
structure Channel where
  enabled : Bool
  type : ChannelType
  name : String
  deriving DecidableEq, Repr

/-- What the `sigrok::Device` answers at the time of a call: the outcome of `channels()`
and of the getters `vendor()` and `model()` (`.error ()` when the call throws
`sigrok::Error`). -/
structure SigrokDevice where
  channels : Except Unit (List Channel)
  vendor : Except Unit String
  model : Except Unit String

/-- The bound `pv::devices::Device`: `device` is the result of its `device()` accessor
(`none` for a null pointer). -/
structure Device where
  device : Option SigrokDevice

/-- The devices as they are at the time of one call, by handle. -/
abbrev Env := Nat → Device

/-- The members of the panel that the polling logic reads and writes. `device_` is the
handle of the bound device (`none` for a null pointer) and `channels_status_` the text of
the status label. The two counters are C `int`s; the channel list is taken to be shorter
than `2^31`, so that counting never overflows. -/
structure JumperlessConfig where
  device_ : Option Nat
  channels_status_ : String
  updating_ : Bool
  last_digital_enabled_ : Int
  last_analog_enabled_ : Int
  deriving DecidableEq, Repr

/-- What a call does besides changing the panel. -/
inductive Event where
  /-- The local flag `channels_changed` was raised (and the change logged). -/
  | channels_changed
  /-- The function `request_device_header_update` was invoked. -/
  | request_device_header_update
  deriving DecidableEq, Repr

/-- The constructor: unbound, label "None", both memo fields at the sentinel. -/
def JumperlessConfig.new : JumperlessConfig :=
  { device_ := none, channels_status_ := "None", updating_ := false,
    last_digital_enabled_ := -1, last_analog_enabled_ := -1 }

/-- The function `QString::split (sep)` with its default behaviour of keeping empty
parts. -/
def split (sep : Char) : List Char → List (List Char)
  | [] => [[]]
  | c :: cs =>
    if c = sep then [] :: split sep cs
    else
      match split sep cs with
      | [] => [[c]]
      | p :: ps => (c :: p) :: ps

/-- The expression `QString::fromStdString (name).split (' ').first ()`. -/
def short_name (name : String) : String :=
  String.mk ((split ' ' name.data).headD [])

/-- The three locals of the counting loop. -/
structure Tally where
  digital_enabled : Int
  analog_enabled : Int
  analog_names : List String
  deriving DecidableEq, Repr

/-- One iteration of the loop over the channels. -/
def tally_channel (t : Tally) (channel : Channel) : Tally :=
  if channel.enabled then
    if channel.type = ChannelType.SR_CHANNEL_LOGIC then
      { t with digital_enabled := t.digital_enabled + 1 }
    else if channel.type = ChannelType.SR_CHANNEL_ANALOG then
      { t with analog_enabled := t.analog_enabled + 1,
               analog_names := t.analog_names ++ [short_name channel.name] }
    else t
  else t

/-- The loop over the channels. -/
def tally (channels : List Channel) : Tally :=
  channels.foldl tally_channel { digital_enabled := 0, analog_enabled := 0, analog_names := [] }

/-- The status text composed from the counts and the analog names; `%1` and `%2` are
replaced by the decimal numerals of the counts. -/
def status_text (t : Tally) : String :=
  if t.digital_enabled > 0 ∧ t.analog_enabled > 0 then
    let status := "D:" ++ toString t.digital_enabled ++ " A:" ++ toString t.analog_enabled
    if t.analog_enabled ≤ 3 then
      status ++ (" (" ++ ",".intercalate t.analog_names ++ ")")
    else status
  else if t.digital_enabled > 0 then
    "D:" ++ toString t.digital_enabled
  else if t.analog_enabled > 0 then
    let status := "A:" ++ toString t.analog_enabled
    if t.analog_enabled ≤ 3 then
      status ++ (" (" ++ ",".intercalate t.analog_names ++ ")")
    else status
  else "None"

/-- Case-insensitive `QString::contains`, with the case folding of ASCII letters. -/
def contains_ci (s marker : String) : Bool :=
  decide (marker.data.map Char.toLower <:+: s.data.map Char.toLower)

/-- Embedding of `JumperlessConfig::is_jumperless_device`; `.error ()` when a getter
throws. -/
def is_jumperless_device (env : Env) (p : JumperlessConfig) : Except Unit Bool :=
  match p.device_ with
  | none => pure false
  | some h =>
    match (env h).device with
    | none => pure false
    | some sr_dev => do
      let vendor ← sr_dev.vendor
      let model ← sr_dev.model
      pure (contains_ci vendor "Jumperless" || contains_ci model "Jumperless" ||
        contains_ci model "Mixed-Signal")

/-- Embedding of `JumperlessConfig::update_channel_status`: the panel after the poll and
the events of the poll. -/
def update_channel_status (env : Env) (p : JumperlessConfig) :
    JumperlessConfig × List Event :=
  match p.device_ with
  | none => ({ p with channels_status_ := "No Device" }, [])
  | some h =>
    match (env h).device with
    | none => ({ p with channels_status_ := "No Device" }, [])
    | some sr_dev =>
      match sr_dev.channels with
      | .error _ => ({ p with channels_status_ := "Error" }, [])
      | .ok channels =>
        let t := tally channels
        let channels_changed : Bool :=
          p.last_digital_enabled_ != t.digital_enabled ||
            p.last_analog_enabled_ != t.analog_enabled
        let (p, events) :=
          if channels_changed then
            ({ p with last_digital_enabled_ := t.digital_enabled,
                      last_analog_enabled_ := t.analog_enabled }, [Event.channels_changed])
          else (p, [])
        let p := { p with channels_status_ := status_text t }
        if channels_changed then
          match is_jumperless_device env p with
          | .ok true => (p, events ++ [Event.request_device_header_update])
          | .ok false => (p, events)
          | .error _ => ({ p with channels_status_ := "Error" }, events)
        else (p, events)

/-- Embedding of `JumperlessConfig::update_visibility`; the second component tells
whether the call returned normally (an exception of `is_jumperless_device` leaves it). -/
def update_visibility (env : Env) (p : JumperlessConfig) :
    (JumperlessConfig × List Event) × Bool :=
  match is_jumperless_device env p with
  | .error _ => ((p, []), false)
  | .ok _ =>
    let p := { p with updating_ := true }
    let p := { p with updating_ := false }
    (update_channel_status env p, true)

/-- Embedding of `JumperlessConfig::set_device`. -/
def set_device (env : Env) (p : JumperlessConfig) (device : Option Nat) :
    (JumperlessConfig × List Event) × Bool :=
  let p := { p with device_ := device }
  update_visibility env p

/-- Embedding of the computation of the pair (mask, pattern) in
`JumperlessConfig::send_trigger_command`; `none` when the function returns early because
no device is bound. The values are `uint32_t`. `float_bits` stands for the conversion of
the voltage spin box's `double` to `float` followed by the reading of the float's storage
as `uint32_t` through the union: floating-point arithmetic and object representation lie
outside this embedding, so the function is a parameter. -/
def send_trigger_command {Voltage : Type} (float_bits : Voltage → Nat) (env : Env)
    (p : JumperlessConfig) (trigger_type : Int) (trigger_channel : Int)
    (trigger_voltage : Voltage) : Option (Nat × Nat) :=
  match p.device_ with
  | none => none
  | some h =>
    match (env h).device with
    | none => none
    | some _ =>
      let mask : Nat := 0
      let pattern : Nat := 0
      if trigger_type = 4 ∨ trigger_type = 5 then
        let mask := (trigger_channel % 2 ^ 32).toNat
        let pattern := float_bits trigger_voltage % 2 ^ 32
        some (mask, pattern)
      else some (mask, pattern)

/-- The poll reads the channel list `channels` of the bound device. -/
def reads_channels (env : Env) (p : JumperlessConfig) (channels : List Channel) : Prop :=
  ∃ h sr_dev, p.device_ = some h ∧ (env h).device = some sr_dev ∧
    sr_dev.channels = .ok channels

/-- A device with the given channels. -/
def device_with (vendor : String) (channels : List Channel) : Env :=
  fun _ => { device := some { channels := .ok channels, vendor := .ok vendor, model := .ok "" } }

/-- A panel that is bound to device `0` and has not polled yet. -/
def bound_panel : JumperlessConfig :=
  { JumperlessConfig.new with device_ := some 0 }

end widgets
end pv

namespace pv
namespace widgets

/-! Histories of the panel and the specification-side vocabulary of the polling claims -/

/-- One call that reaches the polling logic. -/
inductive PanelOp where
  /-- A call of `set_device (device)`. -/
  | set_device (device : Option Nat)
  /-- A call of `update_channel_status ()`, by the timer or by a slot. -/
  | poll

/-- The panel after one call; the call comes with the state of the devices at its time. -/
def JumperlessConfig.step (p : JumperlessConfig) (call : Env × PanelOp) : JumperlessConfig :=
  match call.2 with
  | PanelOp.set_device device => (set_device call.1 p device).1.1
  | PanelOp.poll => (update_channel_status call.1 p).1

/-- The panel after a sequence of calls on a newly constructed panel. -/
def JumperlessConfig.run (calls : List (Env × PanelOp)) : JumperlessConfig :=
  calls.foldl JumperlessConfig.step JumperlessConfig.new

/-- The pair of last-known counts. -/
def JumperlessConfig.memo (p : JumperlessConfig) : Int × Int :=
  (p.last_digital_enabled_, p.last_analog_enabled_)

/-- The channel list a poll obtains when the panel is bound to `bound`: nothing when the
panel is unbound, when the bound device has no sigrok device, or when `channels()`
throws. -/
def channels_read (env : Env) (bound : Option Nat) : Option (List Channel) :=
  match bound with
  | none => none
  | some h =>
    match (env h).device with
    | none => none
    | some sr_dev =>
      match sr_dev.channels with
      | .ok channels => some channels
      | .error _ => none

/-- The number of enabled logic channels of a snapshot. -/
def enabled_digital (channels : List Channel) : Nat :=
  channels.countP (fun c => c.enabled && decide (c.type = ChannelType.SR_CHANNEL_LOGIC))

/-- The enabled analog channels of a snapshot, in order. -/
def enabled_analog (channels : List Channel) : List Channel :=
  channels.filter (fun c => c.enabled && decide (c.type = ChannelType.SR_CHANNEL_ANALOG))

/-- The (digital, analog) enabled counts of a snapshot. -/
def enabled_counts (channels : List Channel) : Int × Int :=
  ((enabled_digital channels : Nat), ((enabled_analog channels).length : Nat))

/-- The getters `vendor()` and `model()` of the device bound to `bound` do not throw (they
are not called when there is no such device). -/
def identity_readable (env : Env) (bound : Option Nat) : Bool :=
  match bound with
  | none => true
  | some h =>
    match (env h).device with
    | none => true
    | some sr_dev =>
      match sr_dev.vendor, sr_dev.model with
      | .ok _, .ok _ => true
      | _, _ => false

/-- The bookkeeping of a history, kept beside the panel: the handle the panel is bound to
and the counts observed by the most recent poll that read the channels, if there was
one. A call of `set_device` rebinds the panel and then polls, unless the identity getters
throw. -/
def observe (g : Option Nat × Option (Int × Int)) (call : Env × PanelOp) :
    Option Nat × Option (Int × Int) :=
  match call.2 with
  | PanelOp.poll =>
    match channels_read call.1 g.1 with
    | some channels => (g.1, some (enabled_counts channels))
    | none => g
  | PanelOp.set_device device =>
    if identity_readable call.1 device then
      match channels_read call.1 device with
      | some channels => (device, some (enabled_counts channels))
      | none => (device, g.2)
    else (device, g.2)

/-- The bookkeeping after a sequence of calls on a newly constructed panel. -/
def history (calls : List (Env × PanelOp)) : Option Nat × Option (Int × Int) :=
  calls.foldl observe (none, none)

/-- The first whitespace-delimited token of a name: the maximal run of non-whitespace
characters that starts at the first non-whitespace character. -/
def first_token (name : String) : String :=
  String.mk ((name.data.dropWhile Char.isWhitespace).takeWhile (fun c => !c.isWhitespace))

/-- The text of a name before its first space character. -/
def before_first_space (name : String) : String :=
  String.mk (name.data.takeWhile (fun c => decide (c ≠ ' ')))

/-- A device whose `channels()` throws. -/
def broken_device : Env :=
  fun _ => { device := some { channels := .error (), vendor := .ok "", model := .ok "" } }

/-- No device has a sigrok device. -/
def no_sigrok_device : Env :=
  fun _ => { device := none }

end widgets
end pv

namespace pv
namespace devices

theorem length_pos_iff (s : String) : s.length > 0 ↔ s ≠ "" := by
  rw [gt_iff_lt, Nat.pos_iff_ne_zero, ne_eq, ne_eq, not_iff_not]
  constructor
  · intro h
    apply String.ext
    exact List.length_eq_zero.mp h
  · rintro rfl; rfl

/-- One guarded `push_back` block contributes exactly the attribute's part. -/
theorem try_catch_push (parts : List String) (r : Read) (render : String → String) :
    try_catch parts (do
      if (← r).length > 0 then
        pure (parts ++ [render (← r)])
      else pure parts) = parts ++ part r render := by
  rcases r with e | s
  · simp [try_catch, part, bind, Except.bind]
  · by_cases h : s = ""
    · subst h
      simp [try_catch, part, bind, Except.bind, pure, Except.pure]
    · have h' : s.length > 0 := (length_pos_iff s).mpr h
      simp [try_catch, part, bind, Except.bind, pure, Except.pure, h, h']

theorem try_catch_push_plain (parts : List String) (r : Read) :
    try_catch parts (do
      if (← r).length > 0 then
        pure (parts ++ [← r])
      else pure parts) = parts ++ part r id :=
  try_catch_push parts r id

theorem try_catch_push_serial (parts : List String) (r : Read) :
    try_catch parts (do
      if (← r).length > 0 then
        pure (parts ++ ["[S/N: " ++ (← r) ++ "]"])
      else pure parts) = parts ++ part r render_serial :=
  try_catch_push parts r render_serial

theorem try_catch_push_connection (parts : List String) (r : Read) :
    try_catch parts (do
      if (← r).length > 0 then
        pure (parts ++ ["(" ++ (← r) ++ ")"])
      else pure parts) = parts ++ part r render_connection :=
  try_catch_push parts r render_connection

theorem try_catch_push_fallback (parts : List String) (d : SrDevice) :
    try_catch parts (do
      if (← d.serial_number).length == 0 then
        if (← d.connection_id).length > 0 then
          pure (parts ++ ["(" ++ (← d.connection_id) ++ ")"])
        else pure parts
      else pure parts) = parts ++ code_connection_part d := by
  unfold code_connection_part
  rcases hs : d.serial_number with e | s
  · simp [try_catch, bind, Except.bind]
  · by_cases h : s = ""
    · subst h
      have := try_catch_push_connection parts d.connection_id
      simpa [bind, Except.bind, pure, Except.pure] using this
    · have h' : s.length ≠ 0 := Nat.pos_iff_ne_zero.mp ((length_pos_iff s).mpr h)
      simp [try_catch, bind, Except.bind, pure, Except.pure, h, h']

theorem full_name_some (d : SrDevice) : full_name (some d) = label (full_parts d) := by
  have h0 := try_catch_push_plain [] d.vendor
  simp only [List.nil_append] at h0
  unfold full_name label full_parts
  simp only [try_catch_push_plain, try_catch_push_serial, try_catch_push_connection,
    List.nil_append, h0]

theorem display_name_some (d : SrDevice) (devices : List SrDevice) :
    display_name (some d) devices =
      label (if devices.any (same_model_other_device d) then
          short_parts d ++ part d.version id ++ part d.serial_number render_serial ++
            code_connection_part d
        else short_parts d) := by
  have h0 := try_catch_push_plain [] d.vendor
  simp only [List.nil_append] at h0
  unfold display_name label short_parts
  simp only [try_catch_push_plain, try_catch_push_serial, try_catch_push_fallback,
    List.nil_append, h0]

theorem same_model_other_device_iff (d s : SrDevice) :
    same_model_other_device d s = true ↔ ambiguous_with d s := by
  unfold same_model_other_device ambiguous_with
  rcases hsv : s.vendor with e1 | sv <;> rcases hdv : d.vendor with e2 | dv <;>
    rcases hsm : s.model with e3 | sm <;> rcases hdm : d.model with e4 | dm <;>
    simp [bind, Except.bind, pure, Except.pure] <;>
    (try split_ifs) <;> simp_all <;> tauto

theorem part_eq_nil_of_absent {r : Read} (h : absent r) (render : String → String) :
    part r render = [] := by
  rcases h with h | h <;> subst h <;> simp [part]

theorem part_ne_nil_of_present {r : Read} (h : present r) (render : String → String) :
    part r render ≠ [] := by
  obtain ⟨s, rfl, hs⟩ := h
  simp [part, hs]

theorem label_eq_spec_label (parts : List String) : label parts = spec_label parts := by
  unfold label spec_label join
  cases parts <;> simp

theorem any_same_model_iff (d : SrDevice) (devices : List SrDevice) :
    devices.any (same_model_other_device d) = true ↔ ∃ s ∈ devices, ambiguous_with d s := by
  simp [List.any_eq_true, same_model_other_device_iff]

theorem not_ambiguous_with_self (d : SrDevice) : ¬ ambiguous_with d d := by
  intro h
  exact h.1 rfl

/-- C1: when each of the five attribute reads fails or returns the empty string,
`full_name` is "(Disconnected Device)" for a present device reference, and it is
"(Invalid Device)" exactly when the reference is absent; the function is total, so no
failing read escapes it. -/
theorem full_name_without_attributes (device_ : Option SrDevice)
    (h : ∀ d, device_ = some d → absent d.vendor ∧ absent d.model ∧ absent d.version ∧
      absent d.serial_number ∧ absent d.connection_id) :
    (device_.isSome → full_name device_ = "(Disconnected Device)") ∧
    (full_name device_ = "(Invalid Device)" ↔ device_ = none) := by
  cases device_ with
  | none => simp [full_name]
  | some d =>
    obtain ⟨h1, h2, h3, h4, h5⟩ := h d rfl
    have hp : full_parts d = [] := by
      simp [full_parts, part_eq_nil_of_absent h1, part_eq_nil_of_absent h2,
        part_eq_nil_of_absent h3, part_eq_nil_of_absent h4, part_eq_nil_of_absent h5]
    have hn : full_name (some d) = "(Disconnected Device)" := by
      rw [full_name_some, hp]; rfl
    refine ⟨fun _ => hn, ?_⟩
    rw [hn]
    simp only [reduceCtorEq, iff_false]
    decide

/-- Instance: a present device whose five reads fail or are empty. -/
theorem full_name_without_attributes_witness :
    full_name (some mute_device) = "(Disconnected Device)" ∧
    full_name (some mute_device) ≠ "(Invalid Device)" :=
  have h := full_name_without_attributes (some mute_device) (by
    intro d hd
    cases hd
    simp [mute_device, absent])
  ⟨h.1 rfl, fun e => Option.some_ne_none _ (h.2.mp e)⟩

/-- C2: for a present device with at least one readable non-empty attribute, `full_name`
is the single-space join of the rendered parts of exactly the readable non-empty
attributes in the order vendor, model, version, serial number, connection id, the serial
number rendered as "[S/N: s]", the connection id as "(c)" and the rest verbatim. -/
theorem full_name_join_of_parts (d : SrDevice)
    (h : present d.vendor ∨ present d.model ∨ present d.version ∨
      present d.serial_number ∨ present d.connection_id) :
    full_name (some d) = " ".intercalate
      (part d.vendor id ++ part d.model id ++ part d.version id ++
        part d.serial_number (fun s => "[S/N: " ++ s ++ "]") ++
        part d.connection_id (fun c => "(" ++ c ++ ")")) := by
  have hne : full_parts d ≠ [] := by
    unfold full_parts
    rcases h with h | h | h | h | h <;>
      simp [part_ne_nil_of_present h]
  rw [full_name_some, label_eq_spec_label, spec_label, if_neg hne]
  rfl

/-- Instance: a device whose only readable non-empty attribute is its serial number. -/
theorem full_name_join_of_parts_witness :
    full_name (some serial_only_device) = "[S/N: A7]" :=
  full_name_join_of_parts serial_only_device
    (Or.inr (Or.inr (Or.inr (Or.inl ⟨"A7", rfl, by decide⟩))))

/-- C3: when no entry of the sibling list is another device (distinct identity) whose
vendor and model both equal this device's, `display_name` of a present device carries no
version, serial or connection-id part: it is the single-space join of the readable
non-empty vendor and model, or "(Disconnected Device)" when neither exists. A list that
holds only the device itself is such a list. -/
theorem display_name_unambiguous (d : SrDevice) (devices : List SrDevice)
    (h : ∀ s ∈ devices, ¬ ambiguous_with d s) :
    display_name (some d) devices =
        (if part d.vendor id ++ part d.model id = [] then "(Disconnected Device)"
         else " ".intercalate (part d.vendor id ++ part d.model id)) ∧
      display_name (some d) [d] =
        (if part d.vendor id ++ part d.model id = [] then "(Disconnected Device)"
         else " ".intercalate (part d.vendor id ++ part d.model id)) := by
  have key : ∀ l : List SrDevice, (∀ s ∈ l, ¬ ambiguous_with d s) →
      display_name (some d) l = spec_label (short_parts d) := by
    intro l hl
    have hany : ¬ (l.any (same_model_other_device d) = true) := by
      rw [any_same_model_iff]
      rintro ⟨s, hs, hamb⟩
      exact hl s hs hamb
    rw [display_name_some, if_neg hany, label_eq_spec_label]
  refine ⟨key devices h, ?_⟩
  apply key
  intro s hs
  rw [List.mem_singleton] at hs
  subst hs
  exact not_ambiguous_with_self s

/-- Instance: a device listed with itself and with a device of another vendor and model. -/
theorem display_name_unambiguous_witness :
    display_name (some (acme 1 (.ok "v2") (.ok "usb/1-2") "001"))
      [acme 1 (.ok "v2") (.ok "usb/1-2") "001", blank 2] = "Acme X1" :=
  (display_name_unambiguous (acme 1 (.ok "v2") (.ok "usb/1-2") "001")
    [acme 1 (.ok "v2") (.ok "usb/1-2") "001", blank 2] (by
      intro s hs
      simp only [List.mem_cons, List.mem_singleton, List.not_mem_nil, or_false] at hs
      rcases hs with rfl | rfl
      · exact not_ambiguous_with_self _
      · rintro ⟨-, v, m, h1, h2, -⟩
        simp only [blank, acme, Except.ok.injEq] at h1 h2
        subst h1
        exact absurd h2 (by decide))).1

theorem prefix_of_prefix_append_sep {α : Type} (c : α) (l a b : List α) (hc : c ∉ l)
    (h : l <+: a ++ c :: b) : l <+: a := by
  induction a generalizing l with
  | nil =>
    cases l with
    | nil => exact List.nil_prefix
    | cons x xs =>
      simp only [List.nil_append, List.cons_prefix_cons] at h
      exact absurd (h.1 ▸ List.mem_cons_self _ _) hc
  | cons y ys ih =>
    cases l with
    | nil => exact List.nil_prefix
    | cons x xs =>
      simp only [List.cons_append, List.cons_prefix_cons] at h ⊢
      exact ⟨h.1, ih xs (fun hm => hc (List.mem_cons_of_mem _ hm)) h.2⟩

/-- A list without the separator occurs in two lists joined by the separator exactly when
it occurs in one of them. -/
theorem infix_append_sep {α : Type} (c : α) (l a b : List α) (hc : c ∉ l) :
    l <:+: a ++ c :: b ↔ l <:+: a ∨ l <:+: b := by
  constructor
  · intro h
    induction a with
    | nil =>
      rw [List.nil_append, List.infix_cons_iff] at h
      rcases h with h | h
      · exact Or.inl (prefix_of_prefix_append_sep c l [] b hc h).isInfix
      · exact Or.inr h
    | cons y ys ih =>
      rw [List.cons_append, List.infix_cons_iff] at h
      rcases h with h | h
      · exact Or.inl (prefix_of_prefix_append_sep c l (y :: ys) b hc h).isInfix
      · rcases ih h with h' | h'
        · exact Or.inl (List.infix_cons h')
        · exact Or.inr h'
  · rintro (h | h)
    · exact h.trans (List.prefix_append a (c :: b)).isInfix
    · exact h.trans ((List.infix_cons (List.infix_refl b)).trans
        (List.suffix_append a (c :: b)).isInfix)

theorem acme_label (i : Nat) (v c : Read) (serial : String) (devices : List SrDevice)
    (hs : serial ≠ "")
    (h : ∃ s ∈ devices, ambiguous_with (acme i v c serial) s) :
    display_name (some (acme i v c serial)) devices =
      spec_label (["Acme", "X1"] ++ part v id ++ ["[S/N: " ++ serial ++ "]"]) := by
  rw [display_name_some, if_pos ((any_same_model_iff _ _).mpr h), label_eq_spec_label]
  congr 1
  have p1 : part (.ok "Acme") id = ["Acme"] := by decide
  have p2 : part (.ok "X1") id = ["X1"] := by decide
  have p3 : part (.ok serial) render_serial = ["[S/N: " ++ serial ++ "]"] := by
    simp [part, hs, render_serial]
  simp only [short_parts, acme, code_connection_part, p1, p2, p3, if_neg hs,
    List.append_nil]
  rfl

/-- Which serial numbers the label of an "Acme X1" device with an ambiguous sibling
contains: its own decoration always, and a space-free string that occurs neither in
"Acme X1" nor in the device's own decoration exactly when its version contains it. -/
theorem acme_label_contains (v : Read) (own other : String)
    (hsp : ' ' ∉ other.data) (hne : other ≠ "")
    (h1 : ¬ other.data <:+: "Acme X1".data)
    (h2 : ¬ other.data <:+: ("[S/N: " ++ own ++ "]").data) :
    contains (spec_label (["Acme", "X1"] ++ part v id ++ ["[S/N: " ++ own ++ "]"]))
        ("[S/N: " ++ own ++ "]") ∧
      (contains (spec_label (["Acme", "X1"] ++ part v id ++ ["[S/N: " ++ own ++ "]"])) other
        ↔ ∃ s, v = .ok s ∧ contains s other) := by
  have hnil : ¬ other.data <:+: [] := by
    intro h
    exact hne (String.ext (List.eq_nil_of_infix_nil h))
  have dnone : (spec_label (["Acme", "X1"] ++ [] ++ ["[S/N: " ++ own ++ "]"])).data =
      "Acme X1".data ++ ' ' :: ("[S/N: " ++ own ++ "]").data := by
    simp [spec_label, String.intercalate, String.intercalate.go, String.data_append]
  have dsome : ∀ s : String,
      (spec_label (["Acme", "X1"] ++ [s] ++ ["[S/N: " ++ own ++ "]"])).data =
        "Acme X1".data ++ ' ' :: (s.data ++ ' ' :: ("[S/N: " ++ own ++ "]").data) := by
    intro s
    simp [spec_label, String.intercalate, String.intercalate.go, String.data_append]
  have cnone : contains (spec_label (["Acme", "X1"] ++ [] ++ ["[S/N: " ++ own ++ "]"]))
        ("[S/N: " ++ own ++ "]") ∧
      ¬ contains (spec_label (["Acme", "X1"] ++ [] ++ ["[S/N: " ++ own ++ "]"])) other := by
    unfold contains
    rw [dnone, infix_append_sep ' ' other.data _ _ hsp]
    exact ⟨⟨"Acme X1".data ++ [' '], [], by simp⟩, fun h => h.elim h1 h2⟩
  rcases v with e | s
  · have hp : part (Except.error e : Read) id = [] := rfl
    rw [hp]
    refine ⟨cnone.1, ?_⟩
    constructor
    · intro h
      exact absurd h cnone.2
    · rintro ⟨s, hs, -⟩
      cases hs
  · by_cases hs : s = ""
    · subst hs
      have hp : part (Except.ok "" : Read) id = [] := by decide
      rw [hp]
      refine ⟨cnone.1, ?_⟩
      constructor
      · intro h
        exact absurd h cnone.2
      · rintro ⟨s, hs, hc⟩
        cases hs
        exact absurd hc hnil
    · have hp : part (Except.ok s : Read) id = [s] := by simp [part, hs]
      rw [hp]
      unfold contains
      rw [dsome, infix_append_sep ' ' other.data _ _ hsp,
        infix_append_sep ' ' other.data _ _ hsp]
      constructor
      · exact ⟨"Acme X1".data ++ ' ' :: (s.data ++ [' ']), [], by simp⟩
      · constructor
        · rintro (h | h | h)
          · exact absurd h h1
          · exact ⟨s, rfl, h⟩
          · exact absurd h h2
        · rintro ⟨t, ht, hc⟩
          cases ht
          exact Or.inr (Or.inl hc)

/-- C4, as stated, fails: when the first device reports the version "002", its label
contains the serial number of the other device. -/
theorem version_can_show_other_serial :
    display_name (some (acme 1 (.ok "002") (.ok "usb/1-2") "001"))
        [acme 1 (.ok "002") (.ok "usb/1-2") "001", acme 2 (.ok "") (.ok "usb/1-3") "002"]
      = "Acme X1 002 [S/N: 001]" ∧
    contains (display_name (some (acme 1 (.ok "002") (.ok "usb/1-2") "001"))
        [acme 1 (.ok "002") (.ok "usb/1-2") "001", acme 2 (.ok "") (.ok "usb/1-3") "002"])
      "002" := by
  decide

/-- C4 (amended): in a sibling list that contains two distinct devices, both with vendor
"Acme" and model "X1", with serial numbers "001" and "002", `display_name` of the first
contains "[S/N: 001]", and it contains "002" exactly when the first device's own version
is readable and contains "002"; `display_name` of the second contains "[S/N: 002]", and
it contains "001" exactly when the second device's own version is readable and contains
"001". -/
theorem display_name_two_acme (i j : Nat) (v1 v2 c1 c2 : Read) (devices : List SrDevice)
    (hij : i ≠ j)
    (h1 : acme i v1 c1 "001" ∈ devices) (h2 : acme j v2 c2 "002" ∈ devices) :
    (contains (display_name (some (acme i v1 c1 "001")) devices) "[S/N: 001]" ∧
      (contains (display_name (some (acme i v1 c1 "001")) devices) "002" ↔
        ∃ s, v1 = .ok s ∧ contains s "002")) ∧
    (contains (display_name (some (acme j v2 c2 "002")) devices) "[S/N: 002]" ∧
      (contains (display_name (some (acme j v2 c2 "002")) devices) "001" ↔
        ∃ s, v2 = .ok s ∧ contains s "001")) := by
  rw [acme_label i v1 c1 "001" devices (by decide)
      ⟨_, h2, Ne.symm hij, "Acme", "X1", rfl, rfl, rfl, rfl⟩,
    acme_label j v2 c2 "002" devices (by decide)
      ⟨_, h1, hij, "Acme", "X1", rfl, rfl, rfl, rfl⟩]
  exact ⟨acme_label_contains v1 "001" "002" (by decide) (by decide) (by decide) (by decide),
    acme_label_contains v2 "002" "001" (by decide) (by decide) (by decide) (by decide)⟩

/-- Instance: the first device reports the version "v2", which does not contain "002". -/
theorem display_name_two_acme_witness :
    contains (display_name (some (acme 1 (.ok "v2") (.ok "usb/1-2") "001"))
      [acme 1 (.ok "v2") (.ok "usb/1-2") "001", acme 2 (.error ()) (.ok "usb/1-3") "002"])
      "[S/N: 001]" ∧
    ¬ contains (display_name (some (acme 1 (.ok "v2") (.ok "usb/1-2") "001"))
      [acme 1 (.ok "v2") (.ok "usb/1-2") "001", acme 2 (.error ()) (.ok "usb/1-3") "002"])
      "002" :=
  have h := (display_name_two_acme 1 2 (.ok "v2") (.error ()) (.ok "usb/1-2") (.ok "usb/1-3")
    [acme 1 (.ok "v2") (.ok "usb/1-2") "001", acme 2 (.error ()) (.ok "usb/1-3") "002"]
    (by decide)
    (List.mem_cons_self _ _) (List.mem_cons_of_mem _ (List.mem_cons_self _ _))).1
  ⟨h.1, fun hc => by
    obtain ⟨s, hs, hcs⟩ := h.2.mp hc
    cases hs
    exact absurd hcs (by decide)⟩

theorem code_connection_part_eq (d : SrDevice) (hs : ∃ s, d.serial_number = .ok s) :
    code_connection_part d = fallback_connection_part d := by
  obtain ⟨s, hs⟩ := hs
  unfold code_connection_part fallback_connection_part
  rw [hs]
  by_cases h : s = "" <;> simp [part, h]

/-- C5, as stated, fails: two devices whose attributes all read as the empty string are
ambiguous siblings of each other, yet the label is the fallback literal and not the
(empty) join of the listed parts. -/
theorem blank_siblings_get_fallback_label :
    (∃ s ∈ [blank 1, blank 2], ambiguous_with (blank 1) s) ∧
    display_name (some (blank 1)) [blank 1, blank 2] = "(Disconnected Device)" ∧
    display_name (some (blank 1)) [blank 1, blank 2] ≠
      " ".intercalate (ambiguous_parts (blank 1)) := by
  refine ⟨⟨blank 2, by simp, by decide, "", "", rfl, rfl, rfl, rfl⟩, by decide, by decide⟩

/-- C5 (amended): for a device that has an ambiguous sibling and whose serial-number read
does not fail, `display_name` is the single-space join of vendor, model, version (each if
readable and non-empty), then "[S/N: serial]" if the serial number is non-empty, then
"(connection_id)" exactly when the serial number is empty and the connection id is
non-empty, and it is "(Disconnected Device)" when none of these parts exists. The serial
and the connection-id decoration never both appear, and a device with empty serial and
non-empty connection id gets the connection id as its last part and no serial part. -/
theorem display_name_ambiguous (d : SrDevice) (devices : List SrDevice)
    (h : ∃ s ∈ devices, ambiguous_with d s) (hs : ∃ s, d.serial_number = .ok s) :
    display_name (some d) devices =
        (if ambiguous_parts d = [] then "(Disconnected Device)"
         else " ".intercalate (ambiguous_parts d)) ∧
      (part d.serial_number render_serial = [] ∨ fallback_connection_part d = []) ∧
      (∀ c, d.serial_number = .ok "" → d.connection_id = .ok c → c ≠ "" →
        ambiguous_parts d =
          part d.vendor id ++ part d.model id ++ part d.version id ++ ["(" ++ c ++ ")"]) := by
  refine ⟨?_, ?_, ?_⟩
  · rw [display_name_some, if_pos ((any_same_model_iff _ _).mpr h), label_eq_spec_label,
      code_connection_part_eq d hs]
    rfl
  · unfold fallback_connection_part
    by_cases hp : part d.serial_number render_serial = []
    · exact Or.inl hp
    · exact Or.inr (if_neg hp)
  · intro c hser hc hne
    simp [ambiguous_parts, fallback_connection_part, hser, hc, part, hne, render_connection]

/-- Instance: empty serial number and readable connection id beside an ambiguous sibling. -/
theorem display_name_ambiguous_witness :
    display_name (some empty_serial_device) [empty_serial_device, acme_sibling] =
      "Acme X1 (usb/1-2)" :=
  (display_name_ambiguous empty_serial_device [empty_serial_device, acme_sibling]
    ⟨acme_sibling, by simp, by decide, "Acme", "X1", rfl, rfl, rfl, rfl⟩ ⟨"", rfl⟩).1

/-- C6: the code at the failing input. With an ambiguous sibling, a device whose
serial-number getter throws and whose connection id reads "usb/1-2" is labelled
"Acme X1", without the connection id, whereas the same device with an empty serial number
is labelled "Acme X1 (usb/1-2)". -/
theorem display_name_serial_failure_drops_connection :
    display_name (some no_serial_device) [no_serial_device, acme_sibling] = "Acme X1" ∧
    display_name (some empty_serial_device) [empty_serial_device, acme_sibling] =
      "Acme X1 (usb/1-2)" ∧
    (∃ s ∈ [no_serial_device, acme_sibling], ambiguous_with no_serial_device s) := by
  refine ⟨by decide, by decide, acme_sibling, by simp, by decide, "Acme", "X1", rfl, rfl,
    rfl, rfl⟩

end devices
end pv

namespace pv
namespace devices

theorem getD_set_nil_self (l : List (List Nat)) (s : Nat) : (l.set s []).getD s [] = [] := by
  simp only [List.getD_eq_getElem?_getD, List.getElem?_set]
  split_ifs <;> simp

theorem getD_set_nil_of_ne (l : List (List Nat)) {s t : Nat} (h : s ≠ t) :
    (l.set s []).getD t [] = l.getD t [] := by
  simp [List.getD_eq_getElem?_getD, List.getElem?_set, h]

theorem getD_append_singleton_of_ne (l : List (List Nat)) (x : List Nat) {s : Nat}
    (h : s ≠ l.length) (hl : l.getD s [] = []) : (l ++ [x]).getD s [] = [] := by
  rcases Nat.lt_or_gt_of_ne h with h1 | h1
  · simpa [List.getD_eq_getElem?_getD, List.getElem?_append_left h1] using hl
  · simp only [List.getD_eq_getElem?_getD]
    rw [List.getElem?_eq_none]
    · rfl
    · simp only [List.length_append, List.length_singleton]
      omega

theorem consistent_new (device : Nat) : Consistent device (HardwareDevice.new device) := by
  refine ⟨rfl, ?_, ?_, ?_⟩ <;> simp [HardwareDevice.new]

theorem close_fields (w : HardwareDevice) :
    w.close.device_ = w.device_ ∧ w.close.device_open_ = false ∧
    w.close.session_ = w.session_ ∧
    w.close.sessions = (match w.session_ with
      | some s => w.sessions.set s []
      | none => w.sessions) ∧
    w.close.calls = w.calls ++ (if w.device_open_ then [LibCall.device_close] else []) ++
      (match w.session_ with
        | some s => [LibCall.remove_devices s]
        | none => []) := by
  unfold HardwareDevice.close
  cases hs : w.session_ <;> cases ho : w.device_open_ <;> simp [hs]

theorem consistent_close {device : Nat} {w : HardwareDevice} (h : Consistent device w) :
    Consistent device w.close := by
  obtain ⟨e1, e2, e3, e4, -⟩ := close_fields w
  refine ⟨e1.trans h.device_eq, ?_, ?_, ?_⟩
  · intro s hs
    rw [e3] at hs
    rw [e4]
    cases hw : w.session_ with
    | none => simpa [hw] using h.others s hs
    | some t =>
      have hts : t ≠ s := by
        rintro rfl
        exact hs hw
      simp only []
      rw [getD_set_nil_of_ne _ hts]
      exact h.others s hs
  · intro s hs
    rw [e3] at hs
    rw [e4, e2, hs]
    simp only [List.length_set, Bool.false_eq_true, if_false]
    exact ⟨(h.held s hs).1, getD_set_nil_self _ _⟩
  · intro _
    exact e2

/-- The state in which `open` makes the underlying call: closed first when it was open. -/
theorem prepared_detached {device : Nat} {w : HardwareDevice} (h : Consistent device w) :
    Consistent device (if w.device_open_ then w.close else w) ∧
    (if w.device_open_ then w.close else w).device_open_ = false ∧
    ∀ s, (if w.device_open_ then w.close else w).sessions.getD s [] = [] := by
  have key : ∀ v : HardwareDevice, Consistent device v → v.device_open_ = false →
      ∀ s, v.sessions.getD s [] = [] := by
    intro v hv hc s
    by_cases hs : v.session_ = some s
    · simpa [hc] using (hv.held s hs).2
    · exact hv.others s hs
  cases ho : w.device_open_ with
  | false =>
    simp only [Bool.false_eq_true, if_false]
    exact ⟨h, ho, key w h ho⟩
  | true =>
    simp only [if_true]
    exact ⟨consistent_close h, (close_fields w).2.1, key _ (consistent_close h) (close_fields w).2.1⟩

theorem open_true_fields (w : HardwareDevice) :
    (w.open true).2 = true ∧
    (w.open true).1 =
      { device_ := (if w.device_open_ then w.close else w).device_
        device_open_ := true
        session_ := some (if w.device_open_ then w.close else w).sessions.length
        sessions := (if w.device_open_ then w.close else w).sessions ++
          [[(if w.device_open_ then w.close else w).device_]]
        calls := (if w.device_open_ then w.close else w).calls ++
          [LibCall.device_open true,
           LibCall.create_session (if w.device_open_ then w.close else w).sessions.length,
           LibCall.add_device (if w.device_open_ then w.close else w).sessions.length
             (if w.device_open_ then w.close else w).device_] } := by
  unfold HardwareDevice.open
  simp

theorem open_false_fields (w : HardwareDevice) :
    (w.open false).2 = false ∧
    (w.open false).1 =
      { (if w.device_open_ then w.close else w) with
        calls := (if w.device_open_ then w.close else w).calls ++
          [LibCall.device_open false] } := by
  unfold HardwareDevice.open
  simp

theorem consistent_open {device : Nat} {w : HardwareDevice} (h : Consistent device w)
    (ok : Bool) : Consistent device (w.open ok).1 := by
  obtain ⟨hp, hc, hd⟩ := prepared_detached h
  cases ok with
  | false =>
    rw [(open_false_fields w).2]
    exact ⟨hp.device_eq, hp.others, hp.held, hp.closed_of_none⟩
  | true =>
    rw [(open_true_fields w).2]
    refine ⟨hp.device_eq, ?_, ?_, ?_⟩
    · intro s hs
      have hne : s ≠ (if w.device_open_ then w.close else w).sessions.length := by
        rintro rfl
        exact hs rfl
      exact getD_append_singleton_of_ne _ _ hne (hd s)
    · intro s hs
      simp only [Option.some.injEq] at hs
      subst hs
      simp [hp.device_eq]
    · intro hs
      simp at hs

theorem consistent_step {device : Nat} {w : HardwareDevice} (h : Consistent device w)
    (op : Op) : Consistent device (w.step op) := by
  rcases op with ok | _
  · exact consistent_open h ok
  · exact consistent_close h

theorem run_append (w : HardwareDevice) (ops : List Op) (op : Op) :
    w.run (ops ++ [op]) = (w.run ops).step op := by
  simp [HardwareDevice.run, List.foldl_append]

theorem consistent_run (device : Nat) (ops : List Op) :
    Consistent device ((HardwareDevice.new device).run ops) := by
  induction ops using List.reverseRecOn with
  | nil => exact consistent_new device
  | append_singleton ops op ih =>
    rw [run_append]
    exact consistent_step ih op

theorem filter_range_eq_singleton (p : Nat → Bool) (s : Nat) :
    ∀ n, s < n → (∀ t, t < n → (p t = true ↔ t = s)) → (List.range n).filter p = [s] := by
  intro n
  induction n with
  | zero => intro hs; omega
  | succ n ih =>
    intro hs hp
    rw [List.range_succ, List.filter_append]
    rcases Nat.lt_succ_iff_lt_or_eq.mp hs with hlt | heq
    · have hn : p n = false := by
        rw [← Bool.not_eq_true, hp n (Nat.lt_succ_self n)]
        omega
      rw [ih hlt (fun t ht => hp t (Nat.lt_succ_of_lt ht))]
      simp [hn]
    · subst heq
      have hn : p s = true := (hp s hs).mpr rfl
      have hnil : (List.range s).filter p = [] := by
        rw [List.filter_eq_nil_iff]
        intro t ht
        rw [List.mem_range] at ht
        rw [hp t (Nat.lt_succ_of_lt ht)]
        omega
      rw [hnil]
      simp [hn]

theorem active_sessions_of_open {device : Nat} {w : HardwareDevice}
    (h : Consistent device w) (ho : w.device_open_ = true) {s : Nat}
    (hs : w.session_ = some s) : w.active_sessions = [s] := by
  unfold HardwareDevice.active_sessions
  apply filter_range_eq_singleton _ s _ (h.held s hs).1
  intro t _
  rw [decide_eq_true_iff]
  constructor
  · intro hmem
    by_contra hne
    have : w.session_ ≠ some t := by
      rw [hs]
      intro e
      exact hne (Option.some.inj e).symm
    rw [h.others t this] at hmem
    simp at hmem
  · rintro rfl
    rw [(h.held t hs).2, ho, h.device_eq]
    simp

/-- C9: when `open()` is called on a wrapper that a preceding `open()` has just opened
(both underlying opens succeeding), the second call makes exactly the library calls
close, detach of the old session's devices, open, creation of a fresh session, add of
this device, in this order; afterwards the wrapper is marked open, holds the fresh
session, that session has exactly this device attached, and it is the only session with
this device attached. -/
theorem open_twice_close_then_open (device : Nat) (ops : List Op) :
    ∃ s1 s2 : Nat, s1 ≠ s2 ∧
      ((((HardwareDevice.new device).run ops).open true).1).session_ = some s1 ∧
      ((((HardwareDevice.new device).run ops).open true).1.open true).2 = true ∧
      ((((HardwareDevice.new device).run ops).open true).1.open true).1.calls =
        ((((HardwareDevice.new device).run ops).open true).1).calls ++
          [LibCall.device_close, LibCall.remove_devices s1, LibCall.device_open true,
           LibCall.create_session s2, LibCall.add_device s2 device] ∧
      ((((HardwareDevice.new device).run ops).open true).1.open true).1.device_open_ = true ∧
      ((((HardwareDevice.new device).run ops).open true).1.open true).1.session_ = some s2 ∧
      ((((HardwareDevice.new device).run ops).open true).1.open true).1.session_devices
        = [device] ∧
      ((((HardwareDevice.new device).run ops).open true).1.open true).1.active_sessions
        = [s2] := by
  have hw := consistent_run device ops
  generalize (HardwareDevice.new device).run ops = w at hw
  have h1 := consistent_open hw true
  have h2 := consistent_open h1 true
  have f1 := (open_true_fields w).2
  have f2 := (open_true_fields (w.open true).1).2
  have o1 : (w.open true).1.device_open_ = true := by rw [f1]
  have s1 : (w.open true).1.session_ =
      some (if w.device_open_ then w.close else w).sessions.length := by rw [f1]
  have l1 : (w.open true).1.sessions.length =
      (if w.device_open_ then w.close else w).sessions.length + 1 := by
    rw [f1]; simp
  obtain ⟨c1, -, c3, c4, c5⟩ := close_fields (w.open true).1
  simp only [o1, if_true] at f2
  have o2 : ((w.open true).1.open true).1.device_open_ = true := by rw [f2]
  have s2 : ((w.open true).1.open true).1.session_ =
      some ((if w.device_open_ then w.close else w).sessions.length + 1) := by
    rw [f2, c4, s1]
    simp [l1]
  refine ⟨_, _, ?_, s1, (open_true_fields _).1, ?_, o2, s2, ?_, ?_⟩
  · omega
  · rw [f2, c5, c4, c1, o1, s1, h1.device_eq]
    simp [l1]
  · unfold HardwareDevice.session_devices
    rw [s2]
    simpa [o2] using (h2.held _ s2).2
  · exact active_sessions_of_open h2 o2 s2

theorem step_session_isSome (w : HardwareDevice) (op : Op) :
    (w.step op).session_.isSome = true ↔ (w.session_.isSome = true ∨ op = Op.open true) := by
  have hprep : (if w.device_open_ then w.close else w).session_ = w.session_ := by
    split_ifs
    · exact (close_fields w).2.2.1
    · rfl
  rcases op with ok | _
  · cases ok with
    | false =>
      simp only [HardwareDevice.step]
      rw [(open_false_fields w).2]
      simp [hprep]
    | true =>
      simp only [HardwareDevice.step]
      rw [(open_true_fields w).2]
      simp
  · simp only [HardwareDevice.step]
    rw [(close_fields w).2.2.1]
    simp

theorem run_session_isSome (device : Nat) (ops : List Op) :
    ((HardwareDevice.new device).run ops).session_.isSome = true ↔ Op.open true ∈ ops := by
  induction ops using List.reverseRecOn with
  | nil => simp [HardwareDevice.run, HardwareDevice.new]
  | append_singleton ops op ih =>
    rw [run_append, step_session_isSome, ih]
    simp only [List.mem_append, List.mem_singleton]
    constructor
    · rintro (h | h)
      · exact Or.inl h
      · exact Or.inr h.symm
    · rintro (h | h)
      · exact Or.inl h
      · exact Or.inr h.symm

/-- C10, as stated, fails: after a successful `open()` followed by `close()` the open flag
is clear while the wrapper still holds the session object. -/
theorem session_kept_after_close :
    ((HardwareDevice.new 0).run [Op.open true, Op.close]).device_open_ = false ∧
    ((HardwareDevice.new 0).run [Op.open true, Op.close]).session_ = some 0 ∧
    ¬ (((HardwareDevice.new 0).run [Op.open true, Op.close]).session_.isSome = true ↔
       ((HardwareDevice.new 0).run [Op.open true, Op.close]).device_open_ = true) := by
  decide

/-- C10 (amended): in every state reachable from a freshly constructed wrapper by any
sequence of `open()` (succeeding or failing) and `close()` calls, the open flag is set if
and only if the session the wrapper holds has the wrapped device attached; a set open
flag implies that a session is held; and a session is held if and only if some `open()`
of the sequence succeeded (`close()` detaches the devices and keeps the session). -/
theorem open_flag_iff_device_attached (device : Nat) (ops : List Op) :
    (((HardwareDevice.new device).run ops).device_open_ = true ↔
      device ∈ ((HardwareDevice.new device).run ops).session_devices) ∧
    (((HardwareDevice.new device).run ops).device_open_ = true →
      ((HardwareDevice.new device).run ops).session_.isSome = true) ∧
    (((HardwareDevice.new device).run ops).session_.isSome = true ↔ Op.open true ∈ ops) := by
  refine ⟨?_, ?_, run_session_isSome device ops⟩
  · have hw := consistent_run device ops
    generalize (HardwareDevice.new device).run ops = w at hw
    unfold HardwareDevice.session_devices
    cases hs : w.session_ with
    | none => simp [hw.closed_of_none hs]
    | some s =>
      simp only []
      rw [(hw.held s hs).2]
      cases w.device_open_ <;> simp
  · have hw := consistent_run device ops
    generalize (HardwareDevice.new device).run ops = w at hw
    intro ho
    cases hs : w.session_ with
    | none => rw [hw.closed_of_none hs] at ho; exact absurd ho (by decide)
    | some s => rfl

end devices
end pv


namespace pv
namespace widgets

/-- What a poll that reads the channel list does to the memo and which events it has. -/
theorem poll_of_reads_channels (env : Env) (p : JumperlessConfig) (channels : List Channel)
    (h : reads_channels env p channels) :
    (update_channel_status env p).1.device_ = p.device_ ∧
    (update_channel_status env p).1.last_digital_enabled_ = (tally channels).digital_enabled ∧
    (update_channel_status env p).1.last_analog_enabled_ = (tally channels).analog_enabled ∧
    ((p.last_digital_enabled_ = (tally channels).digital_enabled ∧
        p.last_analog_enabled_ = (tally channels).analog_enabled) →
      (update_channel_status env p).2 = []) ∧
    (¬ (p.last_digital_enabled_ = (tally channels).digital_enabled ∧
        p.last_analog_enabled_ = (tally channels).analog_enabled) →
      (update_channel_status env p).2.count Event.channels_changed = 1) := by
  obtain ⟨hdl, sr_dev, hb, hd, hc⟩ := h
  unfold update_channel_status
  simp only [hb, hd, hc]
  by_cases hch : (p.last_digital_enabled_ != (tally channels).digital_enabled ||
      p.last_analog_enabled_ != (tally channels).analog_enabled) = true
  · have hne : ¬ (p.last_digital_enabled_ = (tally channels).digital_enabled ∧
        p.last_analog_enabled_ = (tally channels).analog_enabled) := by
      intro hboth
      simp [hboth.1, hboth.2] at hch
    simp only [hch, if_true]
    split <;> simp [hne]
  · have heq : p.last_digital_enabled_ = (tally channels).digital_enabled ∧
        p.last_analog_enabled_ = (tally channels).analog_enabled := by
      simpa using hch
    simp only [hch]
    simp [heq.1, heq.2, hb]

/-- C7: of two consecutive polls that both read the channels of the bound device, the
second one flags no change and does not invoke `request_device_header_update` when the
two snapshots have the same enabled-digital and enabled-analog counts, and it flags
exactly one change and sets both memo fields to the new counts when the counts differ in
at least one of the two. -/
theorem poll_change_detection (env1 env2 : Env) (p : JumperlessConfig)
    (ch1 ch2 : List Channel)
    (h1 : reads_channels env1 p ch1) (h2 : reads_channels env2 p ch2) :
    (((tally ch1).digital_enabled = (tally ch2).digital_enabled ∧
        (tally ch1).analog_enabled = (tally ch2).analog_enabled) →
      (update_channel_status env2 (update_channel_status env1 p).1).2.count
          Event.channels_changed = 0 ∧
      (update_channel_status env2 (update_channel_status env1 p).1).2.count
          Event.request_device_header_update = 0) ∧
    (¬ ((tally ch1).digital_enabled = (tally ch2).digital_enabled ∧
        (tally ch1).analog_enabled = (tally ch2).analog_enabled) →
      (update_channel_status env2 (update_channel_status env1 p).1).2.count
          Event.channels_changed = 1 ∧
      (update_channel_status env2 (update_channel_status env1 p).1).1.last_digital_enabled_
          = (tally ch2).digital_enabled ∧
      (update_channel_status env2 (update_channel_status env1 p).1).1.last_analog_enabled_
          = (tally ch2).analog_enabled) := by
  obtain ⟨b1, d1, a1, -, -⟩ := poll_of_reads_channels env1 p ch1 h1
  have h2' : reads_channels env2 (update_channel_status env1 p).1 ch2 := by
    obtain ⟨hdl, sr_dev, hb, hd, hc⟩ := h2
    exact ⟨hdl, sr_dev, b1.trans hb, hd, hc⟩
  obtain ⟨-, d2, a2, same, differ⟩ :=
    poll_of_reads_channels env2 (update_channel_status env1 p).1 ch2 h2'
  rw [d1, a1] at same differ
  constructor
  · intro heq
    rw [same heq]
    exact ⟨rfl, rfl⟩
  · intro hne
    exact ⟨differ hne, d2, a2⟩

/-- Instance: one enabled logic channel at the first poll, an enabled analog channel more at the second. -/
theorem poll_change_detection_witness :
    (update_channel_status
        (device_with "Jumperless" [⟨true, ChannelType.SR_CHANNEL_LOGIC, "D0"⟩,
          ⟨true, ChannelType.SR_CHANNEL_ANALOG, "A0"⟩])
        (update_channel_status
          (device_with "Jumperless" [⟨true, ChannelType.SR_CHANNEL_LOGIC, "D0"⟩])
          bound_panel).1).2.count Event.channels_changed = 1 :=
  ((poll_change_detection
      (device_with "Jumperless" [⟨true, ChannelType.SR_CHANNEL_LOGIC, "D0"⟩])
      (device_with "Jumperless" [⟨true, ChannelType.SR_CHANNEL_LOGIC, "D0"⟩,
        ⟨true, ChannelType.SR_CHANNEL_ANALOG, "A0"⟩])
      bound_panel _ _ ⟨0, _, rfl, rfl, rfl⟩ ⟨0, _, rfl, rfl, rfl⟩).2 (by decide)).1

/-- The integer part of the trigger payload: on a bound device the pair is `(0, 0)` for
the trigger types 0, 1 and 2, and for the threshold types 4 and 5 the mask is the selected
channel index, for every index from 0 to 7. -/
theorem send_trigger_command_mask {Voltage : Type} (float_bits : Voltage → Nat) (env : Env)
    (p : JumperlessConfig) (h : Nat) (sr_dev : SigrokDevice) (voltage : Voltage)
    (hb : p.device_ = some h) (hd : (env h).device = some sr_dev) :
    (∀ trigger_type channel, trigger_type = 0 ∨ trigger_type = 1 ∨ trigger_type = 2 →
      send_trigger_command float_bits env p trigger_type channel voltage = some (0, 0)) ∧
    (∀ trigger_type (channel : Nat), trigger_type = 4 ∨ trigger_type = 5 → channel ≤ 7 →
      (send_trigger_command float_bits env p trigger_type channel voltage).map Prod.fst
        = some channel) := by
  constructor
  · intro t c ht
    unfold send_trigger_command
    rcases ht with rfl | rfl | rfl <;> simp [hb, hd]
  · intro t c ht hc
    unfold send_trigger_command
    rcases ht with rfl | rfl <;> simp [hb, hd] <;> omega

end widgets
end pv

namespace pv
namespace widgets

theorem split_headD (sep : Char) (l : List Char) :
    (split sep l).headD [] = l.takeWhile (fun c => decide (c ≠ sep)) := by
  induction l with
  | nil => rfl
  | cons c cs ih =>
    unfold split
    by_cases h : c = sep
    · simp [h]
    · rw [if_neg h]
      have hc : decide (c ≠ sep) = true := by simpa using h
      rw [List.takeWhile_cons, hc, if_pos rfl, ← ih]
      cases split sep cs <;> rfl

theorem short_name_eq (name : String) : short_name name = before_first_space name := by
  unfold short_name before_first_space
  rw [split_headD]

theorem takeWhile_not_whitespace (l : List Char)
    (h : ∀ c ∈ l.takeWhile (fun c => decide (c ≠ ' ')), c.isWhitespace = false) :
    l.takeWhile (fun c => !c.isWhitespace) = l.takeWhile (fun c => decide (c ≠ ' ')) := by
  induction l with
  | nil => rfl
  | cons x xs ih =>
    by_cases hx : x = ' '
    · subst hx
      rfl
    · have hd : decide (x ≠ ' ') = true := by simpa using hx
      rw [List.takeWhile_cons, hd, if_pos rfl] at h
      have hw : x.isWhitespace = false := h x (List.mem_cons_self _ _)
      rw [List.takeWhile_cons, List.takeWhile_cons, hd, hw]
      simp only [Bool.not_false, if_true]
      rw [ih (fun c hc => h c (List.mem_cons_of_mem _ hc))]

theorem first_token_eq (name : String) (h1 : name.data.head? ≠ some ' ')
    (h2 : ∀ c ∈ (before_first_space name).data, c.isWhitespace = false) :
    first_token name = before_first_space name := by
  unfold first_token
  unfold before_first_space at h2 ⊢
  simp only at h2
  congr 1
  have hdrop : name.data.dropWhile Char.isWhitespace = name.data := by
    cases hl : name.data with
    | nil => rfl
    | cons x xs =>
      rw [hl] at h1 h2
      have hx : x ≠ ' ' := by
        intro hx
        exact h1 (by simp [hx])
      have hd : decide (x ≠ ' ') = true := by simpa using hx
      rw [List.takeWhile_cons, hd, if_pos rfl] at h2
      have hw : x.isWhitespace = false := h2 x (List.mem_cons_self _ _)
      rw [List.dropWhile_cons, hw]
      simp
  rw [hdrop]
  exact takeWhile_not_whitespace _ h2

/-- What the counting loop leaves in its three locals, started from any values. -/
theorem foldl_tally_channel (channels : List Channel) (t : Tally) :
    channels.foldl tally_channel t =
      { digital_enabled := t.digital_enabled + (enabled_digital channels : Nat)
        analog_enabled := t.analog_enabled + ((enabled_analog channels).length : Nat)
        analog_names := t.analog_names ++
          (enabled_analog channels).map (fun c => short_name c.name) } := by
  induction channels generalizing t with
  | nil => simp [enabled_digital, enabled_analog]
  | cons c cs ih =>
    rw [List.foldl_cons, ih]
    unfold tally_channel enabled_digital enabled_analog
    cases he : c.enabled <;> cases ht : c.type <;>
      simp [he, ht, List.countP_cons, List.filter_cons] <;> omega

theorem tally_eq (channels : List Channel) :
    tally channels =
      { digital_enabled := (enabled_digital channels : Nat)
        analog_enabled := ((enabled_analog channels).length : Nat)
        analog_names := (enabled_analog channels).map (fun c => short_name c.name) } := by
  unfold tally
  rw [foldl_tally_channel]
  simp

theorem is_jumperless_device_isOk (env : Env) (q : JumperlessConfig) :
    (∃ b, is_jumperless_device env q = .ok b) ↔ identity_readable env q.device_ = true := by
  unfold is_jumperless_device identity_readable
  cases hb : q.device_ with
  | none => simp [pure, Except.pure]
  | some h =>
    cases hd : (env h).device with
    | none => simp [hd, pure, Except.pure]
    | some sr_dev =>
      rcases hv : sr_dev.vendor with e1 | v <;> rcases hm : sr_dev.model with e2 | m <;>
        simp [hd, hv, hm, bind, Except.bind, pure, Except.pure]

theorem reads_channels_iff (env : Env) (p : JumperlessConfig) (channels : List Channel) :
    reads_channels env p channels ↔ channels_read env p.device_ = some channels := by
  unfold reads_channels channels_read
  cases hb : p.device_ with
  | none => simp
  | some h =>
    cases hd : (env h).device with
    | none => simp [hd]
    | some sr_dev =>
      rcases hc : sr_dev.channels with e | ch <;> simp [hd, hc]

/-- A poll that does not read the channels: the label it leaves and the untouched memo. -/
theorem poll_without_channels (env : Env) (p : JumperlessConfig)
    (h : channels_read env p.device_ = none) :
    (update_channel_status env p).1.device_ = p.device_ ∧
    (update_channel_status env p).1.memo = p.memo ∧
    (update_channel_status env p).1.channels_status_ =
      (match p.device_ with
       | none => "No Device"
       | some hdl => if ((env hdl).device).isSome then "Error" else "No Device") := by
  unfold update_channel_status JumperlessConfig.memo
  unfold channels_read at h
  cases hb : p.device_ with
  | none => simp
  | some hdl =>
    rw [hb] at h
    cases hd : (env hdl).device with
    | none => simp [hd]
    | some sr_dev =>
      simp only [hd] at h
      rcases hc : sr_dev.channels with e | ch
      · simp [hd, hc]
      · rw [hc] at h
        simp at h

/-- The memo and the binding after any poll. -/
theorem poll_memo (env : Env) (p : JumperlessConfig) :
    (update_channel_status env p).1.device_ = p.device_ ∧
    (update_channel_status env p).1.memo =
      (match channels_read env p.device_ with
       | some channels => enabled_counts channels
       | none => p.memo) := by
  cases h : channels_read env p.device_ with
  | none =>
    obtain ⟨h1, h2, -⟩ := poll_without_channels env p h
    exact ⟨h1, h2⟩
  | some channels =>
    obtain ⟨h1, h2, h3, -, -⟩ :=
      poll_of_reads_channels env p channels ((reads_channels_iff env p channels).mpr h)
    refine ⟨h1, ?_⟩
    unfold JumperlessConfig.memo enabled_counts
    rw [h2, h3, tally_eq]

/-- The memo and the binding after `set_device`. -/
theorem set_device_memo (env : Env) (p : JumperlessConfig) (device : Option Nat) :
    (set_device env p device).1.1.device_ = device ∧
    (set_device env p device).1.1.memo =
      (if identity_readable env device then
        (match channels_read env device with
         | some channels => enabled_counts channels
         | none => p.memo)
       else p.memo) := by
  have hiff := is_jumperless_device_isOk env { p with device_ := device }
  simp only at hiff
  unfold set_device update_visibility
  simp only
  split
  · rename_i e hj
    have hr : identity_readable env device = false := by
      rw [← Bool.not_eq_true, ← hiff, hj]
      simp
    simp [hr, JumperlessConfig.memo]
  · rename_i b hj
    have hr : identity_readable env device = true := hiff.mp ⟨b, hj⟩
    have hp := poll_memo env { p with device_ := device, updating_ := false }
    simp only at hp
    simp only [hr, if_true]
    exact ⟨hp.1, hp.2⟩

theorem panel_run_append (calls : List (Env × PanelOp)) (call : Env × PanelOp) :
    JumperlessConfig.run (calls ++ [call]) = (JumperlessConfig.run calls).step call := by
  simp [JumperlessConfig.run, List.foldl_append]

theorem history_append (calls : List (Env × PanelOp)) (call : Env × PanelOp) :
    history (calls ++ [call]) = observe (history calls) call := by
  simp [history, List.foldl_append]

/-- The panel agrees with the bookkeeping of its history. -/
theorem run_agrees_with_history (calls : List (Env × PanelOp)) :
    (JumperlessConfig.run calls).device_ = (history calls).1 ∧
    (JumperlessConfig.run calls).memo = ((history calls).2).getD (-1, -1) := by
  induction calls using List.reverseRecOn with
  | nil => exact ⟨rfl, rfl⟩
  | append_singleton calls call ih =>
    obtain ⟨ihb, ihm⟩ := ih
    rw [panel_run_append, history_append]
    obtain ⟨env, op⟩ := call
    cases op with
    | poll =>
      obtain ⟨h1, h2⟩ := poll_memo env (JumperlessConfig.run calls)
      simp only [JumperlessConfig.step, observe]
      rw [h1, h2, ihb]
      cases channels_read env (history calls).1 with
      | none => exact ⟨rfl, ihm⟩
      | some channels => exact ⟨rfl, rfl⟩
    | set_device device =>
      obtain ⟨h1, h2⟩ := set_device_memo env (JumperlessConfig.run calls) device
      simp only [JumperlessConfig.step, observe]
      rw [h1, h2]
      cases identity_readable env device with
      | false => exact ⟨rfl, ihm⟩
      | true =>
        simp only [if_true]
        cases channels_read env device with
        | none => exact ⟨rfl, ihm⟩
        | some channels => exact ⟨rfl, rfl⟩

/-- C11: in every state reachable from a newly constructed panel by `set_device` calls
and polls, the pair of last-known counts is the sentinel (-1, -1) when no poll has read
the channels so far, and otherwise it is the (digital, analog) enabled counts observed by
the most recent poll that read the channels; a poll that finds the panel unbound (no
device, or no sigrok device behind it) sets the status to "No Device", one whose channel
read fails sets it to "Error", and both leave the last-known counts unchanged. -/
theorem memo_is_sentinel_or_last_read (calls : List (Env × PanelOp)) (env : Env) :
    (((history calls).2 = none ∧ (JumperlessConfig.run calls).memo = (-1, -1)) ∨
      ∃ counts, (history calls).2 = some counts ∧
        (JumperlessConfig.run calls).memo = counts) ∧
    (((JumperlessConfig.run calls).device_ = none ∨
        ∃ h, (JumperlessConfig.run calls).device_ = some h ∧ (env h).device = none) →
      (update_channel_status env (JumperlessConfig.run calls)).1.channels_status_
          = "No Device" ∧
      (update_channel_status env (JumperlessConfig.run calls)).1.memo
          = (JumperlessConfig.run calls).memo) ∧
    ((∃ h sr_dev, (JumperlessConfig.run calls).device_ = some h ∧
        (env h).device = some sr_dev ∧ sr_dev.channels = .error ()) →
      (update_channel_status env (JumperlessConfig.run calls)).1.channels_status_
          = "Error" ∧
      (update_channel_status env (JumperlessConfig.run calls)).1.memo
          = (JumperlessConfig.run calls).memo) := by
  refine ⟨?_, ?_, ?_⟩
  · have hm := (run_agrees_with_history calls).2
    cases hh : (history calls).2 with
    | none =>
      left
      rw [hh] at hm
      exact ⟨rfl, hm⟩
    | some counts =>
      right
      rw [hh] at hm
      exact ⟨counts, rfl, hm⟩
  · intro hu
    have hnone : channels_read env (JumperlessConfig.run calls).device_ = none := by
      rcases hu with hb | ⟨h, hb, hd⟩
      · simp [channels_read, hb]
      · simp [channels_read, hb, hd]
    obtain ⟨-, h2, h3⟩ := poll_without_channels env _ hnone
    refine ⟨?_, h2⟩
    rw [h3]
    rcases hu with hb | ⟨h, hb, hd⟩
    · simp [hb]
    · simp [hb, hd]
  · rintro ⟨h, sr_dev, hb, hd, hc⟩
    have hnone : channels_read env (JumperlessConfig.run calls).device_ = none := by
      simp [channels_read, hb, hd, hc]
    obtain ⟨-, h2, h3⟩ := poll_without_channels env _ hnone
    refine ⟨?_, h2⟩
    rw [h3]
    simp [hb, hd]

/-- Instance: a poll of a new panel, and a failing channel read after a poll that counted
one enabled logic channel. -/
theorem memo_is_sentinel_or_last_read_witness :
    ((update_channel_status no_sigrok_device (JumperlessConfig.run [])).1.channels_status_
        = "No Device" ∧
      (update_channel_status no_sigrok_device (JumperlessConfig.run [])).1.memo = (-1, -1)) ∧
    ((update_channel_status broken_device
        (JumperlessConfig.run
          [(device_with "Jumperless" [⟨true, ChannelType.SR_CHANNEL_LOGIC, "D0"⟩],
            PanelOp.set_device (some 0))])).1.channels_status_ = "Error" ∧
      (update_channel_status broken_device
        (JumperlessConfig.run
          [(device_with "Jumperless" [⟨true, ChannelType.SR_CHANNEL_LOGIC, "D0"⟩],
            PanelOp.set_device (some 0))])).1.memo = (1, 0)) :=
  ⟨(memo_is_sentinel_or_last_read [] no_sigrok_device).2.1 (Or.inl rfl),
   (memo_is_sentinel_or_last_read
      [(device_with "Jumperless" [⟨true, ChannelType.SR_CHANNEL_LOGIC, "D0"⟩],
        PanelOp.set_device (some 0))] broken_device).2.2 ⟨0, _, rfl, rfl, rfl⟩⟩

/-- C13, as stated, fails: for a name with a leading space the poll collects the empty
string, not the first token, and a tab does not end the collected name. -/
theorem leading_space_gives_empty_name :
    (tally [⟨true, ChannelType.SR_CHANNEL_ANALOG, " A0"⟩]).analog_names = [""] ∧
    first_token " A0" = "A0" ∧
    short_name " A0" ≠ first_token " A0" ∧
    short_name "A0\tV" = "A0\tV" ∧
    first_token "A0\tV" = "A0" := by
  decide

/-- C13 (amended): the names the poll collects are, for the enabled analog channels in
order, the text of the channel's name before its first space character; for every name
this text is what `split (' ').first ()` yields, and it is the first
whitespace-delimited token whenever the name does not start with a space and has no
whitespace character before its first space. -/
theorem collected_names_before_first_space (channels : List Channel) (name : String) :
    (tally channels).analog_names =
      (enabled_analog channels).map (fun c => before_first_space c.name) ∧
    short_name name = before_first_space name ∧
    (name.data.head? ≠ some ' ' →
      (∀ c ∈ (before_first_space name).data, c.isWhitespace = false) →
      short_name name = first_token name) := by
  refine ⟨?_, short_name_eq name, ?_⟩
  · rw [tally_eq]
    simp only [short_name_eq]
  · intro h1 h2
    rw [short_name_eq, first_token_eq name h1 h2]

/-- Instance: a name whose first token is followed by a space. -/
theorem collected_names_before_first_space_witness :
    short_name "A0 (V)" = first_token "A0 (V)" :=
  (collected_names_before_first_space [] "A0 (V)").2.2 (by decide) (by decide)

end widgets
end pv
